import Mathlib

/-!
Shallow embedding of the authorization core of the `valkyrjs/iam` repository:
the `PrincipalProvider` (src/libraries/principal.ts), the `ResourceRegistry`
(src/libraries/resources.ts, the `attr`/`actions` variant), and the `Auth`
orchestrator (src/libraries/auth.ts) together with the small slices of the
JavaScript runtime (thrown values, promises, JS `Map`), of the `zod` schema
library and of the `jose` JWT library that those files rely on.

Effectful TypeScript is modelled with explicit `Except`/`Option` results:
a thrown JavaScript value is a `JsError`, an `async` function that may throw
returns `Except JsError`, and a JS promise outcome is a `PromiseState`.
-/

namespace IAM

/-! ### JavaScript runtime model -/

/-- A thrown JavaScript value, as discriminated by the catch clause of
`Auth.resolve`: an `instanceof JOSEError` value carrying a `.code`, any other
`instanceof Error` value carrying a `.message`, or a non-`Error` thrown value
(kept as its `String(error)` rendering). -/
inductive JsError where
  | jose (code message : String)
  | error (message : String)
  | other (stringRendering : String)
deriving Repr, DecidableEq

/-- A primitive JavaScript literal, enough to populate attribute bags. -/
inductive JsLit where
  | str (s : String)
  | bool (b : Bool)
  | num (n : Int)
deriving Repr, DecidableEq

/-- The settlement state of a JavaScript promise: fulfilled with a value,
rejected with a reason, or forever pending (never settled). -/
inductive PromiseState (α : Type) where
  | resolved (v : α)
  | rejected (reason : String)
  | pending
deriving Repr, DecidableEq

/-- `await`ing a promise and continuing: a fulfilled value feeds the
continuation, a rejection propagates, and awaiting a pending promise
leaves the whole computation pending forever. -/
def awaitThen (p : PromiseState α) (f : α → PromiseState β) : PromiseState β :=
  match p with
  | .resolved v => f v
  | .rejected e => .rejected e
  | .pending => .pending

/-! ### zod model

The repository declares attribute shapes as zod raw shapes (a record of
field name to field schema) and validates raw data with
`z.object(shape).parse(raw)`. Field schemas occurring in the repository are
`z.string()`, `z.boolean()` and `z.number()`; `parse` checks every declared
field is present with the right type and returns an object holding exactly
the declared fields (zod default strip mode), throwing a `ZodError`
otherwise. -/

/-- The type of a single zod field schema used by the repository. -/
inductive FieldType where
  | string
  | boolean
  | number
deriving Repr, DecidableEq

/-- Does a JS literal conform to a zod field schema? -/
def JsLit.hasType : JsLit → FieldType → Bool
  | .str _, .string => true
  | .bool _, .boolean => true
  | .num _, .number => true
  | _, _ => false

/-- A zod raw shape: declared field names with their field schemas. -/
abbrev ZodRawShape := List (String × FieldType)

/-- A raw JavaScript object, as a field-name/value association list. -/
abbrev RawObject := List (String × JsLit)

/-- Property lookup on a raw JavaScript object. -/
def objLookup (raw : RawObject) (k : String) : Option JsLit :=
  (raw.find? (fun p => p.1 == k)).map (fun p => p.2)

/-- `z.object(shape).parse(raw)`: every declared field must be present with
a conforming value; the parsed result holds exactly the declared fields
(unknown keys stripped). A missing or ill-typed field throws a `ZodError`,
rendered here as an `Except.error` naming the offending field. -/
def zodObjectParse : ZodRawShape → RawObject → Except String RawObject
  | [], _ => .ok []
  | (k, t) :: rest, raw =>
    match objLookup raw k with
    | none => .error ("ZodError required field " ++ k)
    | some v =>
      if v.hasType t then
        match zodObjectParse rest raw with
        | .ok out => .ok ((k, v) :: out)
        | .error e => .error e
      else .error ("ZodError invalid type at field " ++ k)

/-! ### JS `Map` model

`ResourceRegistry` keeps its index in a JS `Map`. `Map.set` updates an
existing key in place (keeping insertion order) or appends a fresh entry;
`Map.get` returns the entry for a key or `undefined`; `Map.has` tests
presence. -/

/-- `Map.set`: overwrite the entry for `k` in place if present, else append. -/
def mapSet (m : List (String × α)) (k : String) (v : α) : List (String × α) :=
  if m.any (fun p => p.1 == k) then
    m.map (fun p => if p.1 == k then (k, v) else p)
  else m ++ [(k, v)]

/-- `Map.get`: the value stored at `k`, if any. -/
def mapGet (m : List (String × α)) (k : String) : Option α :=
  (m.find? (fun p => p.1 == k)).map (fun p => p.2)

/-- `Map.has`: is a value stored at `k`? -/
def mapHas (m : List (String × α)) (k : String) : Bool :=
  m.any (fun p => p.1 == k)

/-! ### Principal (src/libraries/principal.ts) -/

/-- A resolved principal: id, assigned roles, and an attribute bag
(`Principal` type of src/libraries/principal.ts). -/
structure Principal where
  id : String
  roles : List String
  attributes : RawObject
deriving Repr, DecidableEq

/-- `PrincipalProvider` of src/libraries/principal.ts. `roles` is the
`z.union` of role literals (its set of allowed role strings), `attributes`
the declared attribute shape, and `resolver` the externally supplied
resolver callback stored as `#resolver` by the constructor. -/
structure PrincipalProvider where
  roles : List String
  attributes : ZodRawShape
  resolver : String → Option Principal

/-- The combined `schema` field built by the `PrincipalProvider` constructor:
`z.object` of a string `id`, an array of `roles` drawn from the role union,
and the declared `attributes` object — here as its acceptance predicate. -/
def PrincipalProvider.schemaAccepts (pp : PrincipalProvider) (p : Principal) : Bool :=
  p.roles.all (fun r => pp.roles.contains r) && (zodObjectParse pp.attributes p.attributes).isOk

/-- `PrincipalProvider.resolve` as written in src/libraries/principal.ts:
it returns `this.#resolver(id)` directly. -/
def PrincipalProvider.resolve (pp : PrincipalProvider) (id : String) : Option Principal :=
  pp.resolver id

/-! ### ResourceRegistry (src/libraries/resources.ts, `attr`/`actions` variant) -/

/-- One input entry of the `ResourceRegistry` constructor:
`{ kind, attr, actions }`. -/
structure ResourceSchemaDef where
  kind : String
  attr : ZodRawShape
  actions : List String
deriving Repr, DecidableEq

/-- One value of the registry `#index` map: the `z.object(resource.attr)`
schema together with the allowed actions. -/
structure RegistryEntry where
  attr : ZodRawShape
  actions : List String
deriving Repr, DecidableEq

/-- The two failures `ResourceRegistry` operations throw:
`ResourceNotFoundError(kind)` and a zod `ZodError` from attribute
validation. -/
inductive RegistryError where
  | resourceNotFound (kind : String)
  | schemaValidation (message : String)
deriving Repr, DecidableEq

/-- A `ResourceRegistry` holds the constructor input list. -/
structure ResourceRegistry where
  resources : List ResourceSchemaDef
deriving Repr, DecidableEq

/-- The `#index` map built by the constructor loop:
`this.#index.set(resource.kind, { attr: z.object(resource.attr), actions })`
for each input entry in order. -/
def ResourceRegistry.index (r : ResourceRegistry) : List (String × RegistryEntry) :=
  r.resources.foldl (fun m res => mapSet m res.kind ⟨res.attr, res.actions⟩) []

/-- `ResourceRegistry.has`. -/
def ResourceRegistry.has (r : ResourceRegistry) (kind : String) : Bool :=
  mapHas r.index kind

/-- Successful result of `ResourceRegistry.get`: `{ kind, ...resource }`. -/
structure GetResult where
  kind : String
  attr : ZodRawShape
  actions : List String
deriving Repr, DecidableEq

/-- `ResourceRegistry.get`: look the kind up in `#index`, throwing
`ResourceNotFoundError(kind)` when absent. -/
def ResourceRegistry.get (r : ResourceRegistry) (kind : String) :
    Except RegistryError GetResult :=
  match mapGet r.index kind with
  | none => .error (.resourceNotFound kind)
  | some e => .ok ⟨kind, e.attr, e.actions⟩

/-- A parsed resource instance `{ kind, id, attr }`. -/
structure Resource where
  kind : String
  id : String
  attr : RawObject
deriving Repr, DecidableEq

/-- `ResourceRegistry.parse`: look up the schema via `get`, validate the raw
attributes with `resource.attr.parse(attr)`, and return `{ kind, id, attr }`
with the validated attributes. -/
def ResourceRegistry.parse (r : ResourceRegistry) (kind id : String) (attr : RawObject) :
    Except RegistryError Resource :=
  match r.get kind with
  | .error e => .error e
  | .ok res =>
    match zodObjectParse res.attr attr with
    | .error e => .error (.schemaValidation e)
    | .ok v => .ok ⟨kind, id, v⟩

/-! ### JWT / jose model

Tokens are compact JWS structures. `SignJWT` produces a token whose
signature was made by a private key; `jwtVerify` checks the signature
against a public key and then validates the registered claims. Key pairs
are abstracted by a shared `pairId`: a signature made by the private key of
a pair verifies exactly under the public key of the same pair; a tampered
signature segment verifies under no key (`sig = none`). -/

/-- A parsed cryptographic key object (result of `importPKCS8`/`importSPKI`),
abstracted to the identity of the key pair it belongs to. -/
structure KeyObject where
  pairId : Nat
deriving Repr, DecidableEq

/-- The protected JWT header: the signing algorithm. -/
structure JWTHeader where
  alg : String
deriving Repr, DecidableEq

/-- A JWT payload with the claims the repository reads or writes. Each claim
is optional because `jwtVerify` accepts payloads in which they are absent
(`payload.uid` in particular is read with a bare type cast). -/
structure JWTPayload where
  uid : Option String
  iss : Option String
  aud : Option String
  iat : Option Nat
  exp : Option Nat
deriving Repr, DecidableEq

/-- A token string: either not a well-formed compact JWS at all, or a
header/payload pair with a signature that verifies under the keys of pair
`sig` (with `sig = none` for a tampered or garbage signature segment). -/
inductive Token where
  | malformed (raw : String)
  | signed (header : JWTHeader) (payload : JWTPayload) (sig : Option Nat)
deriving Repr, DecidableEq

/-- jose `jwtVerify(token, key, { issuer, audience })` at current time `now`
(seconds): signature check, then issuer, audience and expiration claim
checks, each failing with the corresponding `JOSEError` code. -/
def jwtVerify (tok : Token) (key : KeyObject) (issuer audience : String) (now : Nat) :
    Except JsError (JWTHeader × JWTPayload) :=
  match tok with
  | .malformed _ => .error (.jose "ERR_JWS_INVALID" "Invalid Compact JWS")
  | .signed h p sig =>
    if sig ≠ some key.pairId then
      .error (.jose "ERR_JWS_SIGNATURE_VERIFICATION_FAILED" "signature verification failed")
    else if p.iss ≠ some issuer then
      .error (.jose "ERR_JWT_CLAIM_VALIDATION_FAILED" "unexpected iss claim value")
    else if p.aud ≠ some audience then
      .error (.jose "ERR_JWT_CLAIM_VALIDATION_FAILED" "unexpected aud claim value")
    else
      match p.exp with
      | some e =>
        if e ≤ now then .error (.jose "ERR_JWT_EXPIRED" "exp claim timestamp check failed")
        else .ok (h, p)
      | none => .ok (h, p)

/-- The `expiration` argument of `Auth.generate`
(`string | number | Date`): an absolute unix timestamp (number or `Date`),
or a relative time-span string resolved to a number of seconds and added to
the current unix timestamp by jose `setExpirationTime`. -/
inductive Expiration where
  | numeric (timestamp : Nat)
  | span (seconds : Nat)
deriving Repr, DecidableEq

/-- The `exp` claim `setExpirationTime` derives from the argument at current
time `now`. -/
def Expiration.toExp (e : Expiration) (now : Nat) : Nat :=
  match e with
  | .numeric t => t
  | .span s => now + s

/-! ### Auth (src/libraries/auth.ts) -/

/-- The `settings` block of the `Auth` configuration. -/
structure AuthSettings where
  algorithm : String
  privateKey : String
  publicKey : String
  issuer : String
  audience : String

/-- The `Auth` configuration, with the effectful collaborators modelled by
their outcomes: `principalResolve` is `config.principal.resolve` (receiving
the value of `payload.uid`, which the bare cast `payload.uid as string`
passes through even when the claim is absent) and may yield a principal,
absence, or a thrown value; `access` is `config.access`, which may return
an access-control instance or throw. -/
structure AuthConfig (α : Type) where
  settings : AuthSettings
  principalResolve : Option String → Except JsError (Option Principal)
  access : Principal → Except JsError α

/-- The `toJSON()` projection of a valid session: an object with the single
property `uid`, holding the value of `payload.uid` (cast, not checked). -/
structure SessionJSON where
  uid : Option String
deriving Repr, DecidableEq

/-- The `valid: true` variant of a session resolution. -/
structure ValidSession (α : Type) where
  principal : Principal
  access : α
  metaHeaders : JWTHeader
  metaPayload : JWTPayload
  toJSON : SessionJSON
deriving Repr, DecidableEq

/-- `SessionResolution`: the discriminated union returned by `Auth.resolve`. -/
inductive SessionResolution (α : Type) where
  | valid (s : ValidSession α)
  | invalid (code message : String)
deriving Repr, DecidableEq

/-- `Auth.generate(payload, expiration)` once the secret key has been
awaited: sign the `{ uid }` payload with issued-at, issuer, audience and
expiration claims using the configured settings. -/
def Auth.generate (cfg : AuthConfig α) (secret : KeyObject) (uid : String)
    (expiration : Expiration) (now : Nat) : Token :=
  .signed ⟨cfg.settings.algorithm⟩
    { uid := some uid
      iss := some cfg.settings.issuer
      aud := some cfg.settings.audience
      iat := some now
      exp := some (expiration.toExp now) }
    (some secret.pairId)

/-- The `try` block of `Auth.resolve` once the public key has been awaited:
verify the token, resolve the principal from `payload.uid`, throw a plain
`Error("Principal Not Found")` on absence, and otherwise build the valid
session (calling `config.access(principal)` inside the `try`). -/
def Auth.resolveBody (cfg : AuthConfig α) (pubkey : KeyObject) (tok : Token) (now : Nat) :
    Except JsError (ValidSession α) :=
  match jwtVerify tok pubkey cfg.settings.issuer cfg.settings.audience now with
  | .error e => .error e
  | .ok (h, p) =>
    match cfg.principalResolve p.uid with
    | .error e => .error e
    | .ok none => .error (.error "Principal Not Found")
    | .ok (some principal) =>
      match cfg.access principal with
      | .error e => .error e
      | .ok a => .ok ⟨principal, a, h, p, ⟨p.uid⟩⟩

/-- The `catch` clause of `Auth.resolve`: a `JOSEError` becomes
`valid: false` with its own `code`; anything else becomes `valid: false`
with the generic code `AUTH_INTERNAL_ERROR` and the message of the `Error`
(or the `String(error)` rendering of a non-`Error` value). -/
def Auth.catchClause (e : JsError) : SessionResolution α :=
  match e with
  | .jose code message => .invalid code message
  | .error message => .invalid "AUTH_INTERNAL_ERROR" message
  | .other s => .invalid "AUTH_INTERNAL_ERROR" s

/-- `Auth.resolve(token)` once the public key has been awaited: run the
`try` block and capture every thrown value with the `catch` clause. -/
def Auth.resolve (cfg : AuthConfig α) (pubkey : KeyObject) (tok : Token) (now : Nat) :
    SessionResolution α :=
  match Auth.resolveBody cfg pubkey tok now with
  | .ok s => .valid s
  | .error e => Auth.catchClause e

/-- The part of `Auth.resolve` that follows a successful `jwtVerify`, as a
function of the resolver outcome that `config.principal.resolve(payload.uid
as string)` produced: the whole remaining behaviour of the call. -/
def Auth.resolveFromResolver (cfg : AuthConfig α) (h : JWTHeader) (p : JWTPayload)
    (res : Except JsError (Option Principal)) : SessionResolution α :=
  match res with
  | .error e => Auth.catchClause e
  | .ok none => Auth.catchClause (.error "Principal Not Found")
  | .ok (some principal) =>
    match cfg.access principal with
    | .error e => Auth.catchClause e
    | .ok a => .valid ⟨principal, a, h, p, ⟨p.uid⟩⟩

/-! ### Key accessors (`Auth.secret` / `Auth.pubkey`)

Each accessor returns `new Promise((resolve) => ...)` whose executor either
resolves with the cached key, or chains `importPKCS8(...)`/`importSPKI(...)`
with only a fulfillment handler (`.then((key) => { cache; resolve(key); })`).
When the import promise rejects, the fulfillment handler never runs, no
rejection handler exists, and the executor never calls `resolve`, so the
accessor promise never settles. -/

/-- The promise returned by the `Auth.secret` getter, as a function of the
cached `#secret` field and of the outcome of
`importPKCS8(privateKey, algorithm)`. -/
def Auth.secretPromise (cached : Option KeyObject) (importResult : PromiseState KeyObject) :
    PromiseState KeyObject :=
  match cached with
  | some k => .resolved k
  | none =>
    match importResult with
    | .resolved k => .resolved k
    | .rejected _ => .pending
    | .pending => .pending

/-- The promise returned by the `Auth.pubkey` getter, as a function of the
cached `#pubkey` field and of the outcome of
`importSPKI(publicKey, algorithm)`. -/
def Auth.pubkeyPromise (cached : Option KeyObject) (importResult : PromiseState KeyObject) :
    PromiseState KeyObject :=
  match cached with
  | some k => .resolved k
  | none =>
    match importResult with
    | .resolved k => .resolved k
    | .rejected _ => .pending
    | .pending => .pending

/-- The settlement of the promise returned by `Auth.generate`, which begins
with `await this.secret`. -/
def Auth.generateOutcome (cfg : AuthConfig α) (cached : Option KeyObject)
    (importResult : PromiseState KeyObject) (uid : String) (expiration : Expiration)
    (now : Nat) : PromiseState Token :=
  awaitThen (Auth.secretPromise cached importResult)
    (fun k => .resolved (Auth.generate cfg k uid expiration now))

/-- The settlement of the promise returned by `Auth.resolve`, which awaits
`this.pubkey` before verifying. -/
def Auth.resolveOutcome (cfg : AuthConfig α) (cached : Option KeyObject)
    (importResult : PromiseState KeyObject) (tok : Token) (now : Nat) :
    PromiseState (SessionResolution α) :=
  awaitThen (Auth.pubkeyPromise cached importResult)
    (fun k => .resolved (Auth.resolve cfg k tok now))

/-! ### Concrete instances for evaluations

Mirrors the repository test fixtures (src/tests/mocks): the issuer and
audience of the mock `Auth`, the `user`/`post` resource kinds, and a
principal attached to a tenant. -/

/-- Example settings: the repository mock configuration. -/
def exSettings : AuthSettings :=
  ⟨"RS256", "private-pem", "public-pem", "https://valkyrjs.com", "https://valkyrjs.com"⟩

/-- Example principal. -/
def exPrincipal : Principal :=
  ⟨"account-a", ["user"], [("tenantId", .str "t1")]⟩

/-- Example `Auth` configuration over access type `Nat`: the resolver finds
`exPrincipal` for subject id `account-a` and absence for every other value
(including an absent claim), and the access provider returns `0`. -/
def exConfig : AuthConfig Nat :=
  ⟨exSettings,
    fun uid => if uid = some "account-a" then .ok (some exPrincipal) else .ok none,
    fun _ => .ok 0⟩

/-- The imported private key of the example pair. -/
def exSecret : KeyObject := ⟨7⟩

/-- The imported public key of the example pair. -/
def exPubkey : KeyObject := ⟨7⟩

/-- A token generated for `account-a` at time 0, expiring 3600 s later. -/
def exToken : Token := Auth.generate exConfig exSecret "account-a" (.span 3600) 0

/-- A token generated for an unknown subject id. -/
def exGhostToken : Token := Auth.generate exConfig exSecret "ghost" (.span 3600) 0

/-- A well-signed, non-expired token whose payload has no `uid` claim. -/
def exNoUidToken : Token :=
  .signed ⟨"RS256"⟩
    ⟨none, some "https://valkyrjs.com", some "https://valkyrjs.com", some 0, some 3600⟩
    (some 7)

/-- The payload of `exToken`. -/
def exPayload : JWTPayload :=
  ⟨some "account-a", some "https://valkyrjs.com", some "https://valkyrjs.com", some 0, some 3600⟩

/-- The valid session that resolving `exToken` at time 10 produces. -/
def exSession : ValidSession Nat :=
  ⟨exPrincipal, 0, ⟨"RS256"⟩, exPayload, ⟨some "account-a"⟩⟩

/-- A provider whose role vocabulary is admin/user and whose resolver
returns a principal with the undeclared role `hacker` and an attribute bag
missing the declared `tenantId` field. -/
def exBadProvider : PrincipalProvider :=
  ⟨["admin", "user"], [("tenantId", .string)], fun id => some ⟨id, ["hacker"], []⟩⟩

/-- The registry of the repository mock fixtures (spec concrete scenario):
kinds `user` and `post`. -/
def exRegistry : ResourceRegistry :=
  ⟨[⟨"user", [("tenantId", .string), ("public", .boolean)], ["read"]⟩,
    ⟨"post", [("owner", .string)], ["read", "write"]⟩]⟩

/-- A registry constructed from a list with two entries of kind `user`. -/
def exDupRegistry : ResourceRegistry :=
  ⟨[⟨"user", [("tenantId", .string)], ["read"]⟩,
    ⟨"user", [("owner", .string)], ["write"]⟩]⟩

/-! ### Lemmas about the JS `Map` model -/

/-- `Map.get` after the in-place-update branch of `Map.set`. -/
theorem mapGet_map_update (m : List (String × α)) (k k' : String) (v : α) :
    mapGet (m.map (fun p => if p.1 == k then (k, v) else p)) k' =
      if k' = k then (if mapHas m k then some v else none) else mapGet m k' := by
  induction m with
  | nil =>
    by_cases h : k' = k <;> simp [mapGet, mapHas, h]
  | cons a m ih =>
    by_cases ha : a.1 = k <;> by_cases hk : k' = k
    all_goals simp only [mapGet, mapHas] at ih ⊢
    all_goals try simp_all [List.find?_cons, List.any_cons]
    · have hkk : (k == k') = false := beq_eq_false_iff_ne.mpr (fun h => hk h.symm)
      simp only [hkk, Option.map_map]
      exact ih
    · have hfa : (a.1 == k) = false := beq_eq_false_iff_ne.mpr ha
      simp only [hfa, Bool.false_or]
    · cases hak : (a.1 == k') with
      | true => rfl
      | false => simp only [Option.map_map]; exact ih

/-- `Map.get` after the append branch of `Map.set` (key not present). -/
theorem mapGet_append_single (m : List (String × α)) (k k' : String) (v : α)
    (h : m.any (fun p => p.1 == k) = false) :
    mapGet (m ++ [(k, v)]) k' = if k' = k then some v else mapGet m k' := by
  unfold mapGet
  rw [List.find?_append]
  by_cases hk : k' = k
  · subst hk
    have hnone : m.find? (fun p => p.1 == k') = none := by
      rw [List.find?_eq_none]
      intro x hx hc
      have : m.any (fun p => p.1 == k') = true := List.any_eq_true.mpr ⟨x, hx, hc⟩
      rw [h] at this
      exact Bool.false_ne_true this
    simp [hnone, List.find?_cons, if_pos rfl]
  · have hnone : List.find? (fun p => p.1 == k') [(k, v)] = none := by
      have : (k == k') = false := beq_eq_false_iff_ne.mpr (fun hc => hk hc.symm)
      simp [List.find?_cons, this]
    rw [hnone, Option.or_none, if_neg hk]

/-- `Map.get` after `Map.set`: the freshly set key reads back the new value,
every other key is untouched. -/
theorem mapGet_mapSet (m : List (String × α)) (k k' : String) (v : α) :
    mapGet (mapSet m k v) k' = if k' = k then some v else mapGet m k' := by
  unfold mapSet
  by_cases h : m.any (fun p => p.1 == k) = true
  · rw [if_pos h, mapGet_map_update]
    have hh : mapHas m k = true := h
    rw [hh]
    simp
  · have hf : m.any (fun p => p.1 == k) = false := Bool.eq_false_iff.mpr h
    rw [if_neg h, mapGet_append_single m k k' v hf]

/-- `Map.has` agrees with `Map.get` being defined. -/
theorem mapHas_eq_isSome (m : List (String × α)) (k : String) :
    mapHas m k = (mapGet m k).isSome := by
  unfold mapHas mapGet
  cases hf : m.find? (fun p => p.1 == k) with
  | none =>
    simp only [hf, Option.map_none', Option.isSome_none]
    rw [Bool.eq_false_iff]
    intro hany
    obtain ⟨x, hx, hpx⟩ := List.any_eq_true.mp hany
    exact absurd hpx (List.find?_eq_none.mp hf x hx)
  | some a =>
    simp only [hf, Option.map_some', Option.isSome_some]
    rw [List.any_eq_true]
    have hp := List.find?_some (p := fun (q : String × α) => q.1 == k) hf
    exact ⟨a, List.mem_of_find?_eq_some hf, hp⟩

/-- The registry index built by folding `Map.set` over the input list reads
back, at each kind, the entry of the last input element with that kind. -/
theorem registryIndex_aux (l : List ResourceSchemaDef)
    (m : List (String × RegistryEntry)) (k : String) :
    mapGet (l.foldl (fun acc res => mapSet acc res.kind ⟨res.attr, res.actions⟩) m) k =
      match l.reverse.find? (fun res => res.kind == k) with
      | some res => some ⟨res.attr, res.actions⟩
      | none => mapGet m k := by
  induction l generalizing m with
  | nil => simp
  | cons a l ih =>
    rw [List.foldl_cons, ih, List.reverse_cons, List.find?_append]
    cases hf : l.reverse.find? (fun res => res.kind == k) with
    | some r => rfl
    | none =>
      show mapGet (mapSet m a.kind ⟨a.attr, a.actions⟩) k =
        match List.find? (fun res => res.kind == k) [a] with
        | some res => some ⟨res.attr, res.actions⟩
        | none => mapGet m k
      rw [mapGet_mapSet]
      by_cases hk : k = a.kind
      · have hb : (a.kind == k) = true := beq_iff_eq.mpr hk.symm
        simp [List.find?_cons, hb, hk]
      · have hb : (a.kind == k) = false := beq_eq_false_iff_ne.mpr (fun hc => hk hc.symm)
        simp [List.find?_cons, hb, hk]

/-- `mapGet` on a registry index: the last input entry of the kind, if any. -/
theorem ResourceRegistry.index_get (r : ResourceRegistry) (k : String) :
    mapGet r.index k =
      (r.resources.reverse.find? (fun res => res.kind == k)).map
        (fun res => (⟨res.attr, res.actions⟩ : RegistryEntry)) := by
  unfold ResourceRegistry.index
  rw [registryIndex_aux]
  cases h : r.resources.reverse.find? (fun res => res.kind == k) <;> simp [h, mapGet]

/-! ### Claim theorems -/

/-- Claim C6: `ResourceRegistry.get` fails with `ResourceNotFoundError(kind)`
if and only if the kind was never registered; for a registered kind it
returns an entry carrying a registered entry's attribute schema and allowed
actions; `has` returns `true` exactly when the kind is registered. -/
theorem resourceRegistry_get_has_spec (r : ResourceRegistry) (kind : String) :
    (r.has kind = true ↔ ∃ res ∈ r.resources, res.kind = kind) ∧
    (r.get kind = .error (.resourceNotFound kind) ↔
      ¬∃ res ∈ r.resources, res.kind = kind) ∧
    (∀ g, r.get kind = .ok g →
      ∃ res ∈ r.resources, res.kind = kind ∧ g = ⟨kind, res.attr, res.actions⟩) := by
  have hreg : (∃ res ∈ r.resources, res.kind = kind) ↔
      (∃ res, r.resources.reverse.find? (fun res => res.kind == kind) = some res) := by
    constructor
    · rintro ⟨res, hm, hk⟩
      have : (r.resources.reverse.find? (fun res => res.kind == kind)).isSome = true :=
        List.find?_isSome.mpr ⟨res, List.mem_reverse.mpr hm, beq_iff_eq.mpr hk⟩
      exact Option.isSome_iff_exists.mp this
    · rintro ⟨res, hf⟩
      have hp := List.find?_some (p := fun (res : ResourceSchemaDef) => res.kind == kind) hf
      exact ⟨res, List.mem_reverse.mp (List.mem_of_find?_eq_some hf), beq_iff_eq.mp hp⟩
  refine ⟨?_, ?_, ?_⟩
  · show mapHas r.index kind = true ↔ _
    rw [mapHas_eq_isSome, ResourceRegistry.index_get, hreg]
    cases hf : r.resources.reverse.find? (fun res => res.kind == kind) <;> simp [hf]
  · show (match mapGet r.index kind with
      | none => Except.error (RegistryError.resourceNotFound kind)
      | some e => Except.ok (⟨kind, e.attr, e.actions⟩ : GetResult)) =
        Except.error (RegistryError.resourceNotFound kind) ↔ _
    rw [ResourceRegistry.index_get, hreg]
    cases hf : r.resources.reverse.find? (fun res => res.kind == kind) <;> simp [hf]
  · intro g hg
    show ∃ res ∈ r.resources, res.kind = kind ∧ g = ⟨kind, res.attr, res.actions⟩
    unfold ResourceRegistry.get at hg
    rw [ResourceRegistry.index_get] at hg
    cases hf : r.resources.reverse.find? (fun res => res.kind == kind) with
    | none => rw [hf] at hg; cases hg
    | some res =>
      rw [hf] at hg
      have hp := List.find?_some (p := fun (res : ResourceSchemaDef) => res.kind == kind) hf
      refine ⟨res, List.mem_reverse.mp (List.mem_of_find?_eq_some hf),
        beq_iff_eq.mp hp, ?_⟩
      simpa using hg.symm

/-- Claim C6 witness: on the mock registry, `has`, `get` and the
not-registered failure evaluate as the theorem states. -/
theorem resourceRegistry_get_has_spec_witness :
    exRegistry.has "user" = true ∧
    exRegistry.get "ghost" = .error (.resourceNotFound "ghost") ∧
    (∃ res ∈ exRegistry.resources, res.kind = "post" ∧
      (⟨"post", [("owner", FieldType.string)], ["read", "write"]⟩ : GetResult) =
        ⟨"post", res.attr, res.actions⟩) := by
  refine ⟨?_, ?_, ?_⟩
  · exact (resourceRegistry_get_has_spec exRegistry "user").1.mpr
      ⟨⟨"user", [("tenantId", .string), ("public", .boolean)], ["read"]⟩,
        by simp [exRegistry], rfl⟩
  · exact (resourceRegistry_get_has_spec exRegistry "ghost").2.1.mpr
      (by intro h; obtain ⟨res, hm, hk⟩ := h; revert hk; fin_cases hm <;> decide)
  · exact (resourceRegistry_get_has_spec exRegistry "post").2.2
      ⟨"post", [("owner", FieldType.string)], ["read", "write"]⟩ rfl

/-- Claim C7: when the constructor input list contains several entries with
the same kind, construction raises no error and the index maps the kind to
the later entry: whenever `res` is the last input entry of the kind
(`reverse.find?`), `get` returns exactly its attribute schema and actions. -/
theorem resourceRegistry_duplicate_last_wins (r : ResourceRegistry) (kind : String)
    (res : ResourceSchemaDef)
    (hlast : r.resources.reverse.find? (fun x => x.kind == kind) = some res) :
    r.get kind = .ok ⟨kind, res.attr, res.actions⟩ := by
  unfold ResourceRegistry.get
  rw [ResourceRegistry.index_get, hlast]
  rfl

/-- Claim C7 witness: a registry built from two `user` entries answers `get`
with the second entry's schema and actions. -/
theorem resourceRegistry_duplicate_last_wins_witness :
    exDupRegistry.get "user" =
      .ok ⟨"user", [("owner", FieldType.string)], ["write"]⟩ :=
  resourceRegistry_duplicate_last_wins exDupRegistry "user"
    ⟨"user", [("owner", FieldType.string)], ["write"]⟩ rfl

/-- Claim C5: `parse` fails with `ResourceNotFoundError` on an unregistered
kind, fails with a schema-validation error (constructing no resource) when
the raw attributes do not conform to the registered schema, and on success
returns exactly the given kind and id with the validated attributes. -/
theorem resourceRegistry_parse_spec (r : ResourceRegistry) (kind id : String)
    (attr : RawObject) :
    (r.has kind = false → r.parse kind id attr = .error (.resourceNotFound kind)) ∧
    (∀ g, r.get kind = .ok g →
      (∀ e, zodObjectParse g.attr attr = .error e →
        r.parse kind id attr = .error (.schemaValidation e)) ∧
      (∀ v, zodObjectParse g.attr attr = .ok v →
        r.parse kind id attr = .ok ⟨kind, id, v⟩)) := by
  constructor
  · intro h
    have h' : (mapGet r.index kind).isSome = false := by
      rw [← mapHas_eq_isSome]; exact h
    cases hm : mapGet r.index kind with
    | some e => rw [hm] at h'; cases h'
    | none => simp [ResourceRegistry.parse, ResourceRegistry.get, hm]
  · intro g hg
    constructor
    · intro e he
      simp [ResourceRegistry.parse, hg, he]
    · intro v hv
      simp [ResourceRegistry.parse, hg, hv]

/-- Claim C5 witness: the spec's concrete scenario (`user` kind with
`tenantId`/`public` attributes) parses to exactly `(kind, id, attr)`, and an
unregistered kind fails with `ResourceNotFoundError`. -/
theorem resourceRegistry_parse_spec_witness :
    exRegistry.parse "user" "u1" [("tenantId", .str "t1"), ("public", .bool true)] =
      .ok ⟨"user", "u1", [("tenantId", .str "t1"), ("public", .bool true)]⟩ ∧
    exRegistry.parse "ghost" "g1" [] = .error (.resourceNotFound "ghost") := by
  constructor
  · exact ((resourceRegistry_parse_spec exRegistry "user" "u1" _).2
      ⟨"user", [("tenantId", .string), ("public", .boolean)], ["read"]⟩ rfl).2 _ rfl
  · exact (resourceRegistry_parse_spec exRegistry "ghost" "g1" []).1 rfl

/-- Claim C3 (code bug): `PrincipalProvider.resolve` returns the resolver
result without validating it against the combined schema, so a caller does
observe a principal whose roles and attributes violate the declared shape:
on `exBadProvider`, `resolve` returns a principal carrying the undeclared
role `hacker` and an attribute bag missing the declared `tenantId` field,
which the provider's own `schema` rejects. -/
theorem principalProvider_resolve_skips_validation :
    exBadProvider.resolve "u1" = some ⟨"u1", ["hacker"], []⟩ ∧
    exBadProvider.schemaAccepts ⟨"u1", ["hacker"], []⟩ = false :=
  ⟨rfl, rfl⟩

/-- Claim C1: `Auth.resolve` is total over its argument, and every result is
either the `valid` variant or the `invalid` variant whose code is the
generic `AUTH_INTERNAL_ERROR` or the code of the underlying thrown
`JOSEError`. -/
theorem auth_resolve_never_raises (cfg : AuthConfig α) (pubkey : KeyObject)
    (tok : Token) (now : Nat) :
    (∃ s, Auth.resolve cfg pubkey tok now = .valid s) ∨
    (∃ c m, Auth.resolve cfg pubkey tok now = .invalid c m ∧
      (c = "AUTH_INTERNAL_ERROR" ∨
        ∃ msg, Auth.resolveBody cfg pubkey tok now = .error (.jose c msg))) := by
  cases hb : Auth.resolveBody cfg pubkey tok now with
  | ok s => exact .inl ⟨s, by simp [Auth.resolve, hb]⟩
  | error e =>
    cases e with
    | jose c msg =>
      exact .inr ⟨c, msg, by simp [Auth.resolve, hb, Auth.catchClause], .inr ⟨msg, rfl⟩⟩
    | error msg =>
      exact .inr ⟨"AUTH_INTERNAL_ERROR", msg,
        by simp [Auth.resolve, hb, Auth.catchClause], .inl rfl⟩
    | other s =>
      exact .inr ⟨"AUTH_INTERNAL_ERROR", s,
        by simp [Auth.resolve, hb, Auth.catchClause], .inl rfl⟩

/-- Claim C2 (amended): when verification succeeds and the resolver yields
absence, `Auth.resolve` returns `valid = false` with the generic code
`AUTH_INTERNAL_ERROR` and the message `Principal Not Found` — the
principal-not-found case is distinguishable only by message, not by a
dedicated code. -/
theorem auth_resolve_principal_absent (cfg : AuthConfig α) (pubkey : KeyObject)
    (tok : Token) (now : Nat) (hd : JWTHeader) (p : JWTPayload)
    (hv : jwtVerify tok pubkey cfg.settings.issuer cfg.settings.audience now = .ok (hd, p))
    (hr : cfg.principalResolve p.uid = .ok none) :
    Auth.resolve cfg pubkey tok now =
      .invalid "AUTH_INTERNAL_ERROR" "Principal Not Found" := by
  simp [Auth.resolve, Auth.resolveBody, hv, hr, Auth.catchClause]

/-- Claim C2 counterexample: a verified token whose subject resolves to
absence produces the code `AUTH_INTERNAL_ERROR` — the very same generic
internal-error code, not a dedicated principal-not-found code. -/
theorem auth_principal_absent_generic_code_counterexample :
    jwtVerify exGhostToken exPubkey "https://valkyrjs.com" "https://valkyrjs.com" 10 =
      .ok (⟨"RS256"⟩, ⟨some "ghost", some "https://valkyrjs.com",
        some "https://valkyrjs.com", some 0, some 3600⟩) ∧
    exConfig.principalResolve (some "ghost") = .ok none ∧
    Auth.resolve exConfig exPubkey exGhostToken 10 =
      .invalid "AUTH_INTERNAL_ERROR" "Principal Not Found" :=
  ⟨rfl, rfl, rfl⟩

/-- Claim C2 witness: the amended theorem applied at the concrete
verified-but-unresolvable token. -/
theorem auth_resolve_principal_absent_witness :
    Auth.resolve exConfig exPubkey exGhostToken 10 =
      .invalid "AUTH_INTERNAL_ERROR" "Principal Not Found" :=
  auth_resolve_principal_absent exConfig exPubkey exGhostToken 10 ⟨"RS256"⟩
    ⟨some "ghost", some "https://valkyrjs.com", some "https://valkyrjs.com",
      some 0, some 3600⟩ rfl rfl

/-- Claim C4: resolving a token produced by `generate` on the same
configuration (matching key pair, same issuer and audience), before the
expiration instant, with the principal provider resolving the subject id to
a principal carrying that id and a functioning access provider, yields the
`valid = true` variant whose `principal.id` equals the id in the claims. -/
theorem auth_generate_resolve_roundtrip (cfg : AuthConfig α) (secret pubkey : KeyObject)
    (uid : String) (expiration : Expiration) (now now2 : Nat) (p : Principal) (a : α)
    (hpair : pubkey.pairId = secret.pairId)
    (hexp : now2 < expiration.toExp now)
    (hres : cfg.principalResolve (some uid) = .ok (some p))
    (hid : p.id = uid)
    (hacc : cfg.access p = .ok a) :
    Auth.resolve cfg pubkey (Auth.generate cfg secret uid expiration now) now2 =
      .valid ⟨p, a, ⟨cfg.settings.algorithm⟩,
        ⟨some uid, some cfg.settings.issuer, some cfg.settings.audience, some now,
          some (expiration.toExp now)⟩, ⟨some uid⟩⟩ ∧
    p.id = uid := by
  refine ⟨?_, hid⟩
  simp [Auth.resolve, Auth.resolveBody, Auth.generate, jwtVerify, hpair, hres, hacc,
    Nat.not_le.mpr hexp]

/-- Claim C4 witness: the round trip evaluated on the mock configuration. -/
theorem auth_generate_resolve_roundtrip_witness :
    Auth.resolve exConfig exPubkey exToken 10 = .valid exSession ∧
    exPrincipal.id = "account-a" :=
  auth_generate_resolve_roundtrip exConfig exSecret exPubkey "account-a"
    (.span 3600) 0 10 exPrincipal 0 rfl (by decide) rfl rfl rfl

/-- Claim C8: every successful session resolution carries a `toJSON`
projection equal to the one-field object holding exactly the subject id
read from the verified token payload (`SessionJSON` has a single field, so
no principal attributes, roles, access object or token metadata appear). -/
theorem session_toJSON_only_uid (cfg : AuthConfig α) (pubkey : KeyObject) (tok : Token)
    (now : Nat) (s : ValidSession α)
    (hs : Auth.resolve cfg pubkey tok now = .valid s) :
    s.toJSON = ⟨s.metaPayload.uid⟩ := by
  unfold Auth.resolve at hs
  cases hb : Auth.resolveBody cfg pubkey tok now with
  | error e =>
    rw [hb] at hs
    cases e <;> simp [Auth.catchClause] at hs
  | ok s' =>
    rw [hb] at hs
    have hss : s' = s := by simpa using hs
    subst hss
    unfold Auth.resolveBody at hb
    repeat' split at hb
    all_goals cases hb
    all_goals rfl

/-- Claim C8 witness: the valid session obtained from the mock round trip
projects to exactly the subject id of its payload. -/
theorem session_toJSON_only_uid_witness :
    Auth.resolve exConfig exPubkey exToken 10 = .valid exSession ∧
    exSession.toJSON = ⟨exSession.metaPayload.uid⟩ :=
  ⟨rfl, session_toJSON_only_uid exConfig exPubkey exToken 10 exSession rfl⟩

/-- Claim C9: when the key import rejects, the accessor promise never
settles (neither resolves nor rejects), so the promises returned by
`generate` and `resolve`, which await it, never settle either — the import
failure is silently swallowed rather than surfaced. -/
theorem auth_key_import_failure_never_settles (cfg : AuthConfig α) (reason : String)
    (uid : String) (expiration : Expiration) (now : Nat) (tok : Token) :
    Auth.secretPromise none (.rejected reason) = .pending ∧
    Auth.pubkeyPromise none (.rejected reason) = .pending ∧
    Auth.generateOutcome cfg none (.rejected reason) uid expiration now = .pending ∧
    Auth.resolveOutcome cfg none (.rejected reason) tok now = .pending :=
  ⟨rfl, rfl, rfl, rfl⟩

/-- Claim C10: `Auth.resolve` performs no presence or type check on the
subject-id claim: for a verified token whose payload lacks `uid`, the
absent value is passed directly to the principal resolver and the whole
outcome is the continuation of the resolver's response to it — in
particular, resolver absence lands in the generic internal-error path. -/
theorem auth_resolve_missing_uid (cfg : AuthConfig α) (pubkey : KeyObject)
    (tok : Token) (now : Nat) (hd : JWTHeader) (p : JWTPayload)
    (hv : jwtVerify tok pubkey cfg.settings.issuer cfg.settings.audience now = .ok (hd, p))
    (hu : p.uid = none) :
    Auth.resolve cfg pubkey tok now =
      Auth.resolveFromResolver cfg hd p (cfg.principalResolve none) ∧
    (cfg.principalResolve none = .ok none →
      Auth.resolve cfg pubkey tok now =
        .invalid "AUTH_INTERNAL_ERROR" "Principal Not Found") := by
  have hmain : Auth.resolve cfg pubkey tok now =
      Auth.resolveFromResolver cfg hd p (cfg.principalResolve none) := by
    cases hr : cfg.principalResolve none with
    | error e =>
      simp [Auth.resolve, Auth.resolveBody, Auth.resolveFromResolver, hv, hu, hr]
    | ok po =>
      cases po with
      | none =>
        simp [Auth.resolve, Auth.resolveBody, Auth.resolveFromResolver, hv, hu, hr]
      | some principal =>
        cases ha : cfg.access principal with
        | error e =>
          simp [Auth.resolve, Auth.resolveBody, Auth.resolveFromResolver, hv, hu, hr, ha]
        | ok a =>
          simp [Auth.resolve, Auth.resolveBody, Auth.resolveFromResolver, hv, hu, hr, ha]
  refine ⟨hmain, ?_⟩
  intro hr
  rw [hmain, hr]
  rfl

/-- Claim C10 witness: a verified token without a `uid` claim on the mock
configuration takes exactly the resolver continuation, which here ends in
the generic internal-error variant. -/
theorem auth_resolve_missing_uid_witness :
    Auth.resolve exConfig exPubkey exNoUidToken 10 =
      Auth.resolveFromResolver exConfig ⟨"RS256"⟩
        ⟨none, some "https://valkyrjs.com", some "https://valkyrjs.com", some 0, some 3600⟩
        (exConfig.principalResolve none) ∧
    Auth.resolve exConfig exPubkey exNoUidToken 10 =
      .invalid "AUTH_INTERNAL_ERROR" "Principal Not Found" := by
  have h := auth_resolve_missing_uid exConfig exPubkey exNoUidToken 10 ⟨"RS256"⟩
    ⟨none, some "https://valkyrjs.com", some "https://valkyrjs.com", some 0, some 3600⟩
    rfl rfl
  exact ⟨h.1, h.2 rfl⟩

end IAM
